import Mathlib

/-!
Verification of the PaymentStripe checkout backend against its specification.

The development shallowly embeds the relevant parts of the Python source
(src/app/models.py, src/app/routes_webhooks.py, src/app/routes_checkout.py,
src/app/auth.py, src/app/routes_admin.py, src/app/routes_orders.py).
The relational store is a record of lists of rows; each route handler becomes
a pure function from the store (plus the request data and the outcome of any
external call, passed as parameters) to the new store and a response value.
Timestamps are modelled as natural numbers; surrogate row ids of audit rows
and the created_at column of audit rows are omitted because no claim
mentions them.
-/

namespace PaymentStripe

/-- Row of the orders table (src/app/models.py, class Order). -/
structure Order where
  id : Nat
  amount : Int
  currency : String
  status : String
  stripe_session_id : Option String
  payment_intent_id : Option String
  created_at : Nat
  updated_at : Nat
deriving DecidableEq

/-- Row of the adminuser table (src/app/models.py, class AdminUser). -/
structure AdminUser where
  id : Nat
  username : String
  password_hash : String
  is_active : Bool
deriving DecidableEq

/-- Row of the appsettings table (src/app/models.py, class AppSettings). -/
structure AppSettings where
  key : String
  value : String
  description : Option String
  updated_at : Nat
  updated_by : Option Nat
deriving DecidableEq

/-- Row of the auditlog table (src/app/models.py, class AuditLog);
the surrogate id and created_at columns are omitted (no claim uses them). -/
structure AuditLog where
  user_id : Option Nat
  username : String
  action : String
  resource_type : String
  resource_id : Option String
  old_value : Option String
  new_value : Option String
  ip_address : Option String
  user_agent : Option String
  details : Option String
deriving DecidableEq

/-- The relational store: one list of rows per table. -/
structure DB where
  orders : List Order
  settings : List AppSettings
  admin_users : List AdminUser
  audit_logs : List AuditLog
deriving DecidableEq

/-- Python truthiness of an optional string: None and the empty string are falsy. -/
def pyTruthy : Option String → Bool
  | none => false
  | some s => s != ""

/-- Python `a or b` on optional strings (used for falling back to a default). -/
def pyOrOpt (a b : Option String) : Option String :=
  if pyTruthy a then a else b

/-- Python `a or d` where `d` is a plain string default. -/
def pyOrStr (a : Option String) (d : String) : String :=
  match a with
  | none => d
  | some s => if s = "" then d else s

/-- Python truthiness of an optional integer: None and 0 are falsy. -/
def pyTruthyNat : Option Nat → Bool
  | none => false
  | some n => n != 0

/-- Numeric value of a decimal digit character, none for any other character. -/
def digitVal? (c : Char) : Option Nat :=
  if c.isDigit then some (c.toNat - 48) else none

/-- Accumulating left-to-right decimal parse of a character list. -/
def natOfDigitsAux : List Char → Nat → Option Nat
  | [], acc => some acc
  | c :: cs, acc =>
    match digitVal? c with
    | none => none
    | some d => natOfDigitsAux cs (acc * 10 + d)

/-- Python int(s) on the strings this code can meet: decimal digits with an
optional leading minus sign; any other string raises ValueError, modelled
as none.  (Whitespace, plus signs and underscore separators accepted by the
real int() are not modelled; no claim depends on them.) -/
def pyInt? (s : String) : Option Int :=
  match s.data with
  | [] => none
  | '-' :: cs =>
    match cs with
    | [] => none
    | _ => (natOfDigitsAux cs 0).map (fun n => -(n : Int))
  | cs => (natOfDigitsAux cs 0).map (fun n => (n : Int))

/-- Python s.split on a separator character (never returns an empty list:
splitting the empty string yields one empty piece, as in Python). -/
def pySplitAux (sep : Char) : List Char → List Char → List String
  | [], acc => [String.mk acc.reverse]
  | c :: cs, acc =>
    if c = sep then String.mk acc.reverse :: pySplitAux sep cs []
    else pySplitAux sep cs (c :: acc)

/-- Python s.split(sep) for a one-character separator. -/
def pySplit (s : String) (sep : Char) : List String :=
  pySplitAux sep s.data []

/-- Python s.strip(): leading and trailing whitespace removed. -/
def pyStrip (s : String) : String :=
  String.mk (((s.data.dropWhile Char.isWhitespace).reverse.dropWhile
    Char.isWhitespace).reverse)

/-- Python s.lower() on the ASCII codes this code meets. -/
def pyLower (s : String) : String :=
  String.mk (s.data.map Char.toLower)

/-- get_setting(key) from src/app/auth.py: value of the settings row with the
given key, or None. -/
def get_setting (db : DB) (key : String) : Option String :=
  (db.settings.find? (fun s => s.key == key)).map (fun s => s.value)

/-- log_audit_event from src/app/auth.py: resolves a missing username from a
truthy user_id via the adminuser table (falling back to unknown), defaults
the username to system, and appends one audit row. -/
def log_audit_event (db : DB) (user_id : Option Nat) (username : Option String)
    (action resource_type : String) (resource_id old_value new_value
     ip_address user_agent details : Option String) : DB :=
  let uname : Option String :=
    match username with
    | some u => some u
    | none =>
      if pyTruthyNat user_id then
        some (((db.admin_users.find? (fun u => some u.id == user_id)).map
          (fun u => u.username)).getD "unknown")
      else none
  { db with audit_logs := db.audit_logs ++
      [{ user_id := user_id
         username := uname.getD "system"
         action := action
         resource_type := resource_type
         resource_id := resource_id
         old_value := old_value
         new_value := new_value
         ip_address := ip_address
         user_agent := user_agent
         details := details }] }

/-- db.get(Order, i): first orders row whose primary key equals `i`. -/
def findOrder (db : DB) (i : Int) : Option Order :=
  db.orders.find? (fun o => (o.id : Int) == i)

/-- Committing a mutated order row: replace the row with the same primary key. -/
def updateOrderRow (db : DB) (o : Order) : DB :=
  { db with orders := db.orders.map (fun x => if x.id == o.id then o else x) }

/-! ### Webhook reconciler (src/app/routes_webhooks.py) -/

/-- The data.object of a Stripe event, restricted to the fields the handler
reads. -/
structure StripeEventObj where
  obj_id : Option String
  client_reference_id : Option String
  payment_intent : Option String
  metadata_order_id : Option String
  last_payment_error_message : Option String
deriving DecidableEq

/-- An inbound Stripe event after signature verification. -/
structure StripeEvent where
  type : String
  obj : StripeEventObj
deriving DecidableEq

/-- Outcome of the webhook route: the 200 JSONResponse, an HTTPException
(client error), or an unhandled exception surfacing as a 500. -/
inductive WebhookResponse where
  | ok
  | clientError (detail : String)
  | serverError
deriving DecidableEq

/-- Shared shape of the three event branches of stripe_webhook: if the
extracted order id string is truthy it is parsed with int() (a parse failure
is the unhandled ValueError, hence a server error); a parsed id is looked up
and, when the order exists, the row is updated and one audit row is written
with the prior status as old_value. -/
def processOrderEvent (db : DB) (oidStr : Option String) (upd : Order → Order)
    (action newStatus details : String) : DB × WebhookResponse :=
  if pyTruthy oidStr then
    match pyInt? (oidStr.getD "") with
    | none => (db, .serverError)
    | some i =>
      match findOrder db i with
      | none => (db, .ok)
      | some o =>
        let db1 := updateOrderRow db (upd o)
        let db2 := log_audit_event db1 none (some "stripe_webhook") action
          "order" oidStr (some o.status) (some newStatus) none none
          (some details)
        (db2, .ok)
  else (db, .ok)

/-- stripe_webhook from src/app/routes_webhooks.py.  `sigOk` is the outcome of
stripe.Webhook.construct_event: when it raises, the route answers 400 before
touching the store (the exception text in the detail is abstracted away).
`now` stands for datetime.utcnow(). -/
def stripe_webhook (db : DB) (sigOk : Bool) (ev : StripeEvent) (now : Nat) :
    DB × WebhookResponse :=
  if !sigOk then (db, .clientError "Webhook signature verification failed")
  else if ev.type = "checkout.session.completed" then
    processOrderEvent db ev.obj.client_reference_id
      (fun o => { o with
                  status := "paid"
                  payment_intent_id := ev.obj.payment_intent
                  updated_at := now })
      "payment_completed" "paid" "Payment completed via Stripe webhook."
  else if ev.type = "payment_intent.payment_failed" then
    processOrderEvent db (pyOrOpt ev.obj.metadata_order_id ev.obj.client_reference_id)
      (fun o => { o with status := "failed", updated_at := now })
      "payment_failed" "failed" "Payment failed via Stripe webhook."
  else if ev.type = "checkout.session.expired" then
    processOrderEvent db ev.obj.client_reference_id
      (fun o => { o with status := "expired", updated_at := now })
      "payment_session_expired" "expired" "Payment session expired via Stripe webhook."
  else (db, .ok)

/-- Order id string a signature-valid event resolves, branch by branch of
stripe_webhook (events of other types resolve none). -/
def webhookOrderIdStr (ev : StripeEvent) : Option String :=
  if ev.type = "checkout.session.completed" then ev.obj.client_reference_id
  else if ev.type = "payment_intent.payment_failed" then
    pyOrOpt ev.obj.metadata_order_id ev.obj.client_reference_id
  else if ev.type = "checkout.session.expired" then ev.obj.client_reference_id
  else none

/-- A batch of webhook deliveries processed in order. -/
def processEvents (db : DB) (evs : List (Bool × StripeEvent × Nat)) : DB :=
  evs.foldl (fun d e => (stripe_webhook d e.1 e.2.1 e.2.2).1) db

/-! ### Checkout session initiator (src/app/routes_checkout.py) -/

/-- Request body of POST /api/checkout/session (class CreateSessionRequest);
pydantic already enforces amount ≥ 1 before the handler runs. -/
structure CreateSessionRequest where
  amount : Int
  currency : String
  payment_method : String
deriving DecidableEq

/-- Outcome of the requests.post call to the Stripe checkout-sessions API:
either the call raised (network failure), or it returned a response with a
status code, a body text and, for a 200 response, the parsed json id and url. -/
inductive StripeHttpResult where
  | failure (msg : String)
  | response (status : Nat) (text : String) (sessionId sessionUrl : String)
deriving DecidableEq

/-- Response of the checkout route: the success json or an HTTPException 400. -/
inductive CheckoutResponse where
  | success (url : String) (order_id : Nat)
  | clientError (detail : String)
deriving DecidableEq

/-- Autoincrement primary key the database assigns to the next orders row. -/
def nextOrderId (db : DB) : Nat :=
  (db.orders.foldr (fun o acc => max o.id acc) 0) + 1

/-- Fallback list used when the PAYMENT_METHODS setting is falsy. -/
def defaultPaymentMethods : String := "card,blik,p24,bancontact,ideal,sofort"

/-- Enabled payment methods: the PAYMENT_METHODS setting (or its fallback)
split on commas, each piece stripped. -/
def availableMethods (db : DB) : List String :=
  (pySplit (pyOrStr (get_setting db "PAYMENT_METHODS") defaultPaymentMethods) ',').map
    pyStrip

/-- The pending Order row the checkout route inserts before validation. -/
def mkPendingOrder (db : DB) (body : CreateSessionRequest) (now : Nat) : Order :=
  { id := nextOrderId db
    amount := body.amount
    currency := pyLower body.currency
    status := "pending"
    stripe_session_id := none
    payment_intent_id := none
    created_at := now
    updated_at := now }

/-- Audit row written on the payment_attempt_failed paths of the checkout
route (username customer, no old/new value). -/
def checkoutFailAudit (db : DB) (oid : Nat) (ip ua : Option String)
    (details : String) : DB :=
  log_audit_event db none (some "customer") "payment_attempt_failed" "order"
    (some (toString oid)) none none ip ua (some details)

/-- create_checkout_session from src/app/routes_checkout.py.  The Stripe API
call is passed in as `stripeResult`; `now` stands for datetime.utcnow().
When the STRIPE_SECRET_KEY setting is absent, the debug-log slice of the
None key raises before the Order is created, so the blanket except writes
no audit row and surfaces a 400 (exception text abstracted).  The in-handler
double-check of the key re-reads the same settings table and yields the same
value, so it is collapsed.  str(e) of a caught HTTPException is abstracted
to its detail text inside the second audit row of the invalid-method path. -/
def create_checkout_session (db : DB) (body : CreateSessionRequest)
    (ip ua : Option String) (stripeResult : StripeHttpResult) (now : Nat) :
    DB × CheckoutResponse :=
  match get_setting db "STRIPE_SECRET_KEY" with
  | none => (db, .clientError "System error")
  | some _key =>
    let order := mkPendingOrder db body now
    let db1 := { db with orders := db.orders ++ [order] }
    let methods := availableMethods db
    if body.payment_method ∈ methods then
      match stripeResult with
      | .failure msg =>
        (checkoutFailAudit db1 order.id ip ua
          ("System error during payment creation: " ++ msg), .clientError msg)
      | .response status text sid url =>
        if status ≠ 200 then
          (checkoutFailAudit db1 order.id ip ua
            ("System error during payment creation: Stripe API error: " ++ text),
           .clientError ("Stripe API error: " ++ text))
        else
          let db2 :=
            match findOrder db1 (order.id : Int) with
            | some obj => updateOrderRow db1 { obj with stripe_session_id := some sid }
            | none => db1
          let db3 := log_audit_event db2 none (some "customer")
            "payment_attempt_created" "order" (some (toString order.id))
            none none ip ua (some "Payment session created")
          (db3, .success url order.id)
    else
      let detail := "Invalid payment method: " ++ body.payment_method
      let db2 := checkoutFailAudit db1 order.id ip ua
        (detail ++ ". Available methods: " ++ String.intercalate ", " methods)
      let db3 := checkoutFailAudit db2 order.id ip ua
        ("System error during payment creation: " ++ detail)
      (db3, .clientError detail)

/-- Holds when the Stripe API call did not succeed: the post raised, or the
response status is not 200. -/
def stripeCallFails : StripeHttpResult → Prop
  | .failure _ => True
  | .response status _ _ _ => status ≠ 200

/-! ### Settings store and admin identity (src/app/auth.py, routes_admin.py) -/

/-- set_setting from src/app/auth.py: upsert of the settings row, then one
audit row (setting_update or setting_create) but only when user_id is truthy. -/
def set_setting (db : DB) (key value : String) (description : Option String)
    (user_id : Option Nat) (now : Nat) : DB :=
  let existing := db.settings.find? (fun s => s.key == key)
  let old_value := existing.map (fun s => s.value)
  let db1 :=
    match existing with
    | some s =>
      { db with settings := db.settings.map (fun x =>
          if x.key == key then
            { s with
              value := value
              description := description
              updated_at := now
              updated_by := user_id }
          else x) }
    | none =>
      { db with settings := db.settings ++
          [{ key := key
             value := value
             description := description
             updated_at := now
             updated_by := user_id }] }
  let action := match existing with
    | some _ => "setting_update"
    | none => "setting_create"
  if pyTruthyNat user_id then
    log_audit_event db1 user_id none action "setting" (some key) old_value
      (some value) none none none
  else db1

/-- Result of jwt.decode on a presented bearer token: none when decoding
raises (bad signature or expired token), otherwise the claims, of which the
code reads only sub. -/
structure DecodedToken where
  sub : Option String
deriving DecidableEq

/-- verify_token from src/app/auth.py: the sub claim of a decodable token. -/
def verify_token (decoded : Option DecodedToken) : Option String :=
  match decoded with
  | none => none
  | some p => p.sub

/-- get_current_user from src/app/auth.py: 401 when the token has no usable
subject or no adminuser row carries that username; otherwise that row. -/
def get_current_user (db : DB) (decoded : Option DecodedToken) :
    Except String AdminUser :=
  match verify_token decoded with
  | none => .error "Invalid authentication credentials"
  | some username =>
    match db.admin_users.find? (fun u => u.username == username) with
    | none => .error "User not found"
    | some u => .ok u

/-- login from src/app/routes_admin.py.  `vp` is verify_password (the bcrypt
check, passed in abstractly); a minted token is modelled by the username it
is bound to. -/
def login (db : DB) (vp : String → String → Bool) (username password : String)
    (ip ua : Option String) : DB × Except String String :=
  let user? := db.admin_users.find? (fun u => u.username == username)
  match user? with
  | none =>
    (log_audit_event db none (some username) "login_failed" "user"
      (some username) none none ip ua (some "Invalid credentials"),
     .error "Invalid credentials")
  | some user =>
    if !(vp password user.password_hash) then
      (log_audit_event db none (some username) "login_failed" "user"
        (some username) none none ip ua (some "Invalid credentials"),
       .error "Invalid credentials")
    else if !user.is_active then
      (log_audit_event db none (some username) "login_failed" "user"
        (some username) none none ip ua (some "User account is disabled"),
       .error "User account is disabled")
    else
      (log_audit_event db (some user.id) (some user.username) "login_success"
        "user" (some user.username) none none ip ua none,
       .ok user.username)

/-- update_setting route from src/app/routes_admin.py (PUT
/api/admin/settings/key): calls set_setting with the authenticated user as
actor, then, when the framework injected the request object, writes an
additional setting_update audit row that carries no old value. -/
def update_setting (db : DB) (key value : String) (description : Option String)
    (current_user : AdminUser) (client_request : Bool) (ip ua : Option String)
    (now : Nat) : DB :=
  let db1 := set_setting db key value description (some current_user.id) now
  if client_request then
    log_audit_event db1 (some current_user.id) (some current_user.username)
      "setting_update" "setting" (some key) none (some value) ip ua
      (some "Updated via admin panel")
  else db1

/-! ### Order listing (src/app/routes_orders.py) -/

/-- Comparator of the SQL order-by clause: descending primary key. -/
def byIdDesc (a b : Order) : Prop := b.id ≤ a.id

instance : DecidableRel byIdDesc := fun a b => Nat.decLe b.id a.id

instance : IsTotal Order byIdDesc :=
  ⟨fun a b => (Nat.le_total b.id a.id).imp id id⟩

instance : IsTrans Order byIdDesc :=
  ⟨fun _ _ _ hab hbc => Nat.le_trans hbc hab⟩

/-- list_orders from src/app/routes_orders.py: the orders rows sorted by
descending id, truncated to 50; the route takes no offset or limit
parameter. -/
def list_orders (db : DB) : List Order :=
  (List.insertionSort byIdDesc db.orders).take 50

/-! ### Concrete fixtures used by witnesses and counterexamples -/

/-- Store with no rows at all. -/
def dbEmpty : DB := { orders := [], settings := [], admin_users := [], audit_logs := [] }

/-- An order already in the terminal state failed. -/
def orderFailed1 : Order :=
  { id := 1, amount := 2000, currency := "pln", status := "failed",
    stripe_session_id := some "cs_0", payment_intent_id := some "pi_0",
    created_at := 0, updated_at := 1 }

/-- Store holding one failed order. -/
def dbFailed : DB :=
  { orders := [orderFailed1], settings := [], admin_users := [], audit_logs := [] }

/-- An order still pending. -/
def orderPending1 : Order :=
  { id := 1, amount := 2000, currency := "pln", status := "pending",
    stripe_session_id := some "cs_0", payment_intent_id := none,
    created_at := 0, updated_at := 0 }

/-- Store holding one pending order. -/
def dbPending : DB :=
  { orders := [orderPending1], settings := [], admin_users := [], audit_logs := [] }

/-- A signature-valid checkout.session.completed event for order 1. -/
def evCompleted1 : StripeEvent :=
  { type := "checkout.session.completed",
    obj := { obj_id := some "cs_1", client_reference_id := some "1",
             payment_intent := some "pi_1", metadata_order_id := none,
             last_payment_error_message := none } }

/-- A completed event whose order id 7 matches no row. -/
def evCompleted7 : StripeEvent :=
  { type := "checkout.session.completed",
    obj := { obj_id := some "cs_7", client_reference_id := some "7",
             payment_intent := some "pi_7", metadata_order_id := none,
             last_payment_error_message := none } }

/-- A completed event whose order id is not a decimal string. -/
def evAbc : StripeEvent :=
  { type := "checkout.session.completed",
    obj := { obj_id := some "cs_a", client_reference_id := some "abc",
             payment_intent := none, metadata_order_id := none,
             last_payment_error_message := none } }

/-- Store configured with a Stripe key and the methods card and blik. -/
def dbCheckout : DB :=
  { orders := []
    settings :=
      [{ key := "STRIPE_SECRET_KEY", value := "sk_test_x", description := none,
         updated_at := 0, updated_by := none },
       { key := "PAYMENT_METHODS", value := "card,blik", description := none,
         updated_at := 0, updated_by := none }]
    admin_users := []
    audit_logs := [] }

/-- Checkout request selecting p24, which dbCheckout does not enable. -/
def bodyP24 : CreateSessionRequest :=
  { amount := 2000, currency := "PLN", payment_method := "p24" }

/-- Checkout request selecting card, which dbCheckout enables. -/
def bodyCard : CreateSessionRequest :=
  { amount := 2000, currency := "pln", payment_method := "card" }

/-- Store holding one settings row with key K. -/
def dbSettingK : DB :=
  { orders := []
    settings := [{ key := "K", value := "old", description := none,
                   updated_at := 0, updated_by := none }]
    admin_users := [{ id := 1, username := "admin", password_hash := "h",
                      is_active := true }]
    audit_logs := [] }

/-- The bootstrap admin account, deactivated. -/
def adminInactive : AdminUser :=
  { id := 1, username := "admin", password_hash := "h", is_active := false }

/-- Store holding only the deactivated admin account. -/
def dbInactiveAdmin : DB :=
  { orders := [], settings := [], admin_users := [adminInactive], audit_logs := [] }

/-- The bootstrap admin account, active, as current_user of a PUT request. -/
def adminUser1 : AdminUser :=
  { id := 1, username := "admin", password_hash := "h", is_active := true }

/-! ### Helper lemmas -/

/-- log_audit_event touches only the auditlog table. -/
theorem log_audit_event_orders (db : DB) (uid : Option Nat) (un : Option String)
    (a rt : String) (ri ov nv ip ua d : Option String) :
    (log_audit_event db uid un a rt ri ov nv ip ua d).orders = db.orders := rfl

/-- log_audit_event leaves the settings table unchanged. -/
theorem log_audit_event_settings (db : DB) (uid : Option Nat) (un : Option String)
    (a rt : String) (ri ov nv ip ua d : Option String) :
    (log_audit_event db uid un a rt ri ov nv ip ua d).settings = db.settings := rfl

/-- log_audit_event leaves the adminuser table unchanged. -/
theorem log_audit_event_admin_users (db : DB) (uid : Option Nat) (un : Option String)
    (a rt : String) (ri ov nv ip ua d : Option String) :
    (log_audit_event db uid un a rt ri ov nv ip ua d).admin_users = db.admin_users := rfl

/-- Every row of the orders table after an in-place row update is either an
original row or the updated row. -/
theorem mem_updateOrderRow (db : DB) (o : Order) :
    ∀ y ∈ (updateOrderRow db o).orders, y ∈ db.orders ∨ y = o := by
  intro y hy
  simp only [updateOrderRow, List.mem_map] at hy
  obtain ⟨x, hx, hxy⟩ := hy
  by_cases h : x.id == o.id
  · right
    rw [if_pos h] at hxy
    exact hxy.symm
  · left
    rw [if_neg h] at hxy
    exact hxy ▸ hx

/-- Rows after a webhook branch: each is an original row or carries the
status the branch writes. -/
theorem processOrderEvent_mem (db : DB) (oidStr : Option String)
    (upd : Order → Order) (action ns d st : String)
    (hupd : ∀ o, (upd o).status = st) :
    ∀ y ∈ (processOrderEvent db oidStr upd action ns d).1.orders,
      y ∈ db.orders ∨ y.status = st := by
  intro y hy
  by_cases ht : pyTruthy oidStr = true
  · rw [processOrderEvent, if_pos ht] at hy
    cases hp : pyInt? (oidStr.getD "") with
    | none =>
      rw [hp] at hy
      exact Or.inl hy
    | some i =>
      simp only [hp] at hy
      cases hf : findOrder db i with
      | none =>
        simp only [hf] at hy
        exact Or.inl hy
      | some o =>
        simp only [hf] at hy
        have hy' : y ∈ (updateOrderRow db (upd o)).orders := hy
        rcases mem_updateOrderRow db (upd o) y hy' with h1 | h1
        · exact Or.inl h1
        · exact Or.inr (h1 ▸ hupd o)
  · rw [processOrderEvent, if_neg ht] at hy
    exact Or.inl hy

/-- One webhook delivery: each resulting orders row is an original row or has
one of the three statuses the reconciler writes. -/
theorem stripe_webhook_mem (db : DB) (sig : Bool) (ev : StripeEvent) (now : Nat) :
    ∀ y ∈ (stripe_webhook db sig ev now).1.orders,
      y ∈ db.orders ∨ y.status ∈ ["paid", "failed", "expired"] := by
  intro y hy
  rw [stripe_webhook] at hy
  by_cases hs : (!sig) = true
  · rw [if_pos hs] at hy
    exact Or.inl hy
  · rw [if_neg hs] at hy
    by_cases h1 : ev.type = "checkout.session.completed"
    · rw [if_pos h1] at hy
      rcases processOrderEvent_mem db _ _ _ _ _ "paid" (fun _ => rfl) y hy with h | h
      · exact Or.inl h
      · exact Or.inr (by simp [h])
    · rw [if_neg h1] at hy
      by_cases h2 : ev.type = "payment_intent.payment_failed"
      · rw [if_pos h2] at hy
        rcases processOrderEvent_mem db _ _ _ _ _ "failed" (fun _ => rfl) y hy with h | h
        · exact Or.inl h
        · exact Or.inr (by simp [h])
      · rw [if_neg h2] at hy
        by_cases h3 : ev.type = "checkout.session.expired"
        · rw [if_pos h3] at hy
          rcases processOrderEvent_mem db _ _ _ _ _ "expired" (fun _ => rfl) y hy with h | h
          · exact Or.inl h
          · exact Or.inr (by simp [h])
        · rw [if_neg h3] at hy
          exact Or.inl hy

/-- A webhook branch whose order id is missing, empty, or resolves to no
existing row leaves the store unchanged and answers 200. -/
theorem processOrderEvent_noop (db : DB) (oidStr : Option String)
    (upd : Order → Order) (action ns d : String)
    (h : pyTruthy oidStr = false ∨
      ∃ s i, oidStr = some s ∧ pyInt? s = some i ∧ findOrder db i = none) :
    processOrderEvent db oidStr upd action ns d = (db, .ok) := by
  rcases h with h | ⟨s, i, hoid, hi, hf⟩
  · rw [processOrderEvent, if_neg (by simp [h])]
  · subst hoid
    by_cases hs : s = ""
    · subst hs
      simp [pyInt?] at hi
    · rw [processOrderEvent, if_pos (by simp [pyTruthy, hs])]
      simp only [Option.getD_some, hi, hf]

/-! ### Claim C1 -/

/-- Claim C1 is false as stated: the handler never checks the prior status,
so a checkout.session.completed delivery for an order already in the
terminal state failed overwrites it to paid. -/
theorem C1_counterexample :
    dbFailed.orders.map (fun o => o.status) = ["failed"] ∧
    (stripe_webhook dbFailed true evCompleted1 5).1.orders.map (fun o => o.status)
      = ["paid"] := by decide

/-- Claim C1 (amended): across any sequence of webhook deliveries, every
orders row either is an untouched original row or carries one of the three
statuses paid, failed, expired that the reconciler writes; in particular no
delivery ever moves an order to pending, though a terminal-state row can
still be overwritten by a later event of a different outcome. -/
theorem C1_no_transition_to_pending (db : DB)
    (evs : List (Bool × StripeEvent × Nat)) :
    ∀ y ∈ (processEvents db evs).orders,
      y ∈ db.orders ∨ y.status ∈ ["paid", "failed", "expired"] := by
  induction evs generalizing db with
  | nil => intro y hy; exact Or.inl hy
  | cons e es ih =>
    intro y hy
    have hstep : processEvents db (e :: es) =
        processEvents (stripe_webhook db e.1 e.2.1 e.2.2).1 es := rfl
    rw [hstep] at hy
    rcases ih _ y hy with h | h
    · exact stripe_webhook_mem db e.1 e.2.1 e.2.2 y h
    · exact Or.inr h

/-- Witness for C1 at a concrete delivery. -/
theorem C1_witness :
    ({ orderPending1 with status := "paid", payment_intent_id := some "pi_1", updated_at := 5 } ∈
      (processEvents dbPending [(true, evCompleted1, 5)]).orders) ∧
    ({ orderPending1 with status := "paid", payment_intent_id := some "pi_1", updated_at := 5 } ∈
        dbPending.orders ∨
      ({ orderPending1 with status := "paid", payment_intent_id := some "pi_1", updated_at := 5 } : Order).status ∈
        ["paid", "failed", "expired"]) :=
  ⟨by decide, C1_no_transition_to_pending dbPending [(true, evCompleted1, 5)] _ (by decide)⟩

/-! ### Claim C3 -/

/-- Claim C3: a signature-valid checkout.session.completed event whose order
id resolves to an existing order sets that order to paid, stores the payment
intent id, sets updated_at, and writes one payment_completed audit row whose
old_value is the prior status and whose new_value is paid. -/
theorem C3_completed_event_marks_paid (db : DB) (ev : StripeEvent) (now : Nat)
    (s : String) (i : Int) (o : Order)
    (htype : ev.type = "checkout.session.completed")
    (hcri : ev.obj.client_reference_id = some s)
    (hi : pyInt? s = some i)
    (ho : findOrder db i = some o) :
    (stripe_webhook db true ev now).1.orders =
      db.orders.map (fun x => if x.id == o.id then
        { o with
          status := "paid"
          payment_intent_id := ev.obj.payment_intent
          updated_at := now }
        else x) ∧
    (stripe_webhook db true ev now).1.audit_logs = db.audit_logs ++
      [{ user_id := none
         username := "stripe_webhook"
         action := "payment_completed"
         resource_type := "order"
         resource_id := some s
         old_value := some o.status
         new_value := some "paid"
         ip_address := none
         user_agent := none
         details := some "Payment completed via Stripe webhook." }] ∧
    (stripe_webhook db true ev now).2 = .ok := by
  have hs : s ≠ "" := by
    intro h
    subst h
    simp [pyInt?] at hi
  rw [stripe_webhook, if_neg (by simp), if_pos htype]
  rw [processOrderEvent, hcri, if_pos (by simp [pyTruthy, hs])]
  simp only [Option.getD_some, hi, ho]
  exact ⟨rfl, rfl, trivial⟩

/-- Witness for C3 at a concrete store and event. -/
theorem C3_witness :
    (evCompleted1.type = "checkout.session.completed" ∧
      evCompleted1.obj.client_reference_id = some "1" ∧
      pyInt? "1" = some 1 ∧ findOrder dbPending 1 = some orderPending1) ∧
    ((stripe_webhook dbPending true evCompleted1 5).1.orders =
      dbPending.orders.map (fun x => if x.id == orderPending1.id then
        { orderPending1 with
          status := "paid"
          payment_intent_id := evCompleted1.obj.payment_intent
          updated_at := 5 }
        else x) ∧
    (stripe_webhook dbPending true evCompleted1 5).1.audit_logs = dbPending.audit_logs ++
      [{ user_id := none
         username := "stripe_webhook"
         action := "payment_completed"
         resource_type := "order"
         resource_id := some "1"
         old_value := some orderPending1.status
         new_value := some "paid"
         ip_address := none
         user_agent := none
         details := some "Payment completed via Stripe webhook." }] ∧
    (stripe_webhook dbPending true evCompleted1 5).2 = .ok) :=
  ⟨⟨rfl, rfl, rfl, rfl⟩,
   C3_completed_event_marks_paid dbPending evCompleted1 5 "1" 1 orderPending1
     rfl rfl rfl rfl⟩

/-! ### Claim C4 -/

/-- Claim C4: when signature verification fails the webhook route answers
with a client error and the store is returned untouched: no order row and no
audit row changes, for every store and every event. -/
theorem C4_signature_failure_no_mutation (db : DB) (ev : StripeEvent) (now : Nat) :
    stripe_webhook db false ev now =
      (db, .clientError "Webhook signature verification failed") := rfl

/-! ### Claim C5 -/

/-- Claim C5 is false as stated: an event whose order id does not even parse
as an integer leaves the store untouched but surfaces an unhandled error
(the 500 from int raising ValueError), not the success answer. -/
theorem C5_counterexample :
    (stripe_webhook dbEmpty true evAbc 0).1 = dbEmpty ∧
    (stripe_webhook dbEmpty true evAbc 0).2 = WebhookResponse.serverError ∧
    WebhookResponse.serverError ≠ WebhookResponse.ok := by decide

/-- Claim C5 (amended): a signature-valid event whose order id is missing or
falsy, or parses to an integer matching no orders row, changes no row, writes
no audit row and answers success; order ids that do not parse as integers
instead surface a server error, still without touching the store. -/
theorem C5_unknown_order_silently_ignored (db : DB) (ev : StripeEvent) (now : Nat)
    (h : pyTruthy (webhookOrderIdStr ev) = false ∨
      ∃ s i, webhookOrderIdStr ev = some s ∧ pyInt? s = some i ∧
        findOrder db i = none) :
    stripe_webhook db true ev now = (db, .ok) := by
  rw [stripe_webhook, if_neg (by simp)]
  by_cases h1 : ev.type = "checkout.session.completed"
  · rw [if_pos h1]
    simp only [webhookOrderIdStr, if_pos h1] at h
    exact processOrderEvent_noop _ _ _ _ _ _ h
  · rw [if_neg h1]
    by_cases h2 : ev.type = "payment_intent.payment_failed"
    · rw [if_pos h2]
      simp only [webhookOrderIdStr, if_neg h1, if_pos h2] at h
      exact processOrderEvent_noop _ _ _ _ _ _ h
    · rw [if_neg h2]
      by_cases h3 : ev.type = "checkout.session.expired"
      · rw [if_pos h3]
        simp only [webhookOrderIdStr, if_neg h1, if_neg h2, if_pos h3] at h
        exact processOrderEvent_noop _ _ _ _ _ _ h
      · rw [if_neg h3]

/-- Witness for C5 at a concrete store and event. -/
theorem C5_witness :
    (pyTruthy (webhookOrderIdStr evCompleted7) = false ∨
      ∃ s i, webhookOrderIdStr evCompleted7 = some s ∧ pyInt? s = some i ∧
        findOrder dbEmpty i = none) ∧
    stripe_webhook dbEmpty true evCompleted7 0 = (dbEmpty, .ok) :=
  ⟨Or.inr ⟨"7", 7, rfl, rfl, rfl⟩,
   C5_unknown_order_silently_ignored dbEmpty evCompleted7 0
     (Or.inr ⟨"7", 7, rfl, rfl, rfl⟩)⟩

/-! ### Claim C2 -/

/-- Claim C2 is false as stated: a checkout request with a disabled payment
method still creates a pending Order row (inserted before validation) and
writes two payment_attempt_failed audit rows, not one. -/
theorem C2_counterexample :
    dbCheckout.orders = [] ∧
    (create_checkout_session dbCheckout bodyP24 none none (.failure "net") 3).1.orders.length = 1 ∧
    ((create_checkout_session dbCheckout bodyP24 none none (.failure "net") 3).1.audit_logs.map
      (fun a => a.action)) = ["payment_attempt_failed", "payment_attempt_failed"] := by
  decide

/-- Claim C2 (amended): a checkout request whose payment method is not in the
configured set fails with a validation error, after having created one Order
row that stays pending, and writes exactly two payment_attempt_failed audit
rows (the validation one and the one from the blanket exception handler);
settings and admin accounts are untouched. -/
theorem C2_invalid_method_rejected (db : DB) (body : CreateSessionRequest)
    (ip ua : Option String) (sr : StripeHttpResult) (now : Nat) (k : String)
    (hkey : get_setting db "STRIPE_SECRET_KEY" = some k)
    (hpm : body.payment_method ∉ availableMethods db) :
    (create_checkout_session db body ip ua sr now).1.orders =
      db.orders ++ [mkPendingOrder db body now] ∧
    (mkPendingOrder db body now).status = "pending" ∧
    (create_checkout_session db body ip ua sr now).1.settings = db.settings ∧
    (create_checkout_session db body ip ua sr now).1.admin_users = db.admin_users ∧
    (∃ e1 e2, (create_checkout_session db body ip ua sr now).1.audit_logs =
        db.audit_logs ++ [e1, e2] ∧
      e1.action = "payment_attempt_failed" ∧ e2.action = "payment_attempt_failed") ∧
    (create_checkout_session db body ip ua sr now).2 =
      .clientError ("Invalid payment method: " ++ body.payment_method) := by
  simp only [create_checkout_session, hkey]
  rw [if_neg hpm]
  exact ⟨rfl, rfl, rfl, rfl, ⟨_, _, List.append_assoc _ _ _, rfl, rfl⟩, rfl⟩

/-- Witness for C2 at a concrete store and request. -/
theorem C2_witness :
    (get_setting dbCheckout "STRIPE_SECRET_KEY" = some "sk_test_x" ∧
      bodyP24.payment_method ∉ availableMethods dbCheckout) ∧
    ((create_checkout_session dbCheckout bodyP24 none none (.failure "net") 3).1.orders =
      dbCheckout.orders ++ [mkPendingOrder dbCheckout bodyP24 3] ∧
    (mkPendingOrder dbCheckout bodyP24 3).status = "pending" ∧
    (create_checkout_session dbCheckout bodyP24 none none (.failure "net") 3).1.settings =
      dbCheckout.settings ∧
    (create_checkout_session dbCheckout bodyP24 none none (.failure "net") 3).1.admin_users =
      dbCheckout.admin_users ∧
    (∃ e1 e2, (create_checkout_session dbCheckout bodyP24 none none (.failure "net") 3).1.audit_logs =
        dbCheckout.audit_logs ++ [e1, e2] ∧
      e1.action = "payment_attempt_failed" ∧ e2.action = "payment_attempt_failed") ∧
    (create_checkout_session dbCheckout bodyP24 none none (.failure "net") 3).2 =
      .clientError ("Invalid payment method: " ++ bodyP24.payment_method)) :=
  ⟨⟨rfl, by decide⟩,
   C2_invalid_method_rejected dbCheckout bodyP24 none none (.failure "net") 3
     "sk_test_x" rfl (by decide)⟩

/-! ### Claim C6 -/

/-- Claim C6: when the Stripe API call fails (network failure or non-200
response) after the Order row was created, the route surfaces a client error,
the order stays pending, and one payment_attempt_failed audit row recording
the error detail is written. -/
theorem C6_processor_error_audited (db : DB) (body : CreateSessionRequest)
    (ip ua : Option String) (sr : StripeHttpResult) (now : Nat) (k : String)
    (hkey : get_setting db "STRIPE_SECRET_KEY" = some k)
    (hpm : body.payment_method ∈ availableMethods db)
    (hsr : stripeCallFails sr) :
    (create_checkout_session db body ip ua sr now).1.orders =
      db.orders ++ [mkPendingOrder db body now] ∧
    (mkPendingOrder db body now).status = "pending" ∧
    (∃ e, (create_checkout_session db body ip ua sr now).1.audit_logs =
        db.audit_logs ++ [e] ∧
      e.action = "payment_attempt_failed" ∧
      ∃ d, e.details = some ("System error during payment creation: " ++ d)) ∧
    ∃ m, (create_checkout_session db body ip ua sr now).2 = .clientError m := by
  cases sr with
  | failure msg =>
    simp only [create_checkout_session, hkey]
    rw [if_pos hpm]
    exact ⟨rfl, rfl, ⟨_, rfl, rfl, msg, rfl⟩, msg, rfl⟩
  | response status text sid url =>
    have hst : status ≠ 200 := hsr
    simp only [create_checkout_session, hkey]
    rw [if_pos hpm, if_pos hst]
    exact ⟨rfl, rfl, ⟨_, rfl, rfl, _, rfl⟩, _, rfl⟩

/-- Witness for C6 at a concrete store and request. -/
theorem C6_witness :
    (get_setting dbCheckout "STRIPE_SECRET_KEY" = some "sk_test_x" ∧
      bodyCard.payment_method ∈ availableMethods dbCheckout ∧
      stripeCallFails (.failure "connection reset")) ∧
    ((create_checkout_session dbCheckout bodyCard none none (.failure "connection reset") 3).1.orders =
      dbCheckout.orders ++ [mkPendingOrder dbCheckout bodyCard 3] ∧
    (mkPendingOrder dbCheckout bodyCard 3).status = "pending" ∧
    (∃ e, (create_checkout_session dbCheckout bodyCard none none (.failure "connection reset") 3).1.audit_logs =
        dbCheckout.audit_logs ++ [e] ∧
      e.action = "payment_attempt_failed" ∧
      ∃ d, e.details = some ("System error during payment creation: " ++ d)) ∧
    ∃ m, (create_checkout_session dbCheckout bodyCard none none (.failure "connection reset") 3).2 =
      .clientError m) :=
  ⟨⟨rfl, by decide, trivial⟩,
   C6_processor_error_audited dbCheckout bodyCard none none (.failure "connection reset") 3
     "sk_test_x" rfl (by decide) trivial⟩

/-! ### Settings-store lemmas shared by the C7 and C10 theorems -/

/-- set_setting on a pre-existing key with a nonzero actor: the row is
rewritten in place and one setting_update audit row with before and after
values is appended. -/
theorem set_setting_existing (db : DB) (key value : String)
    (desc : Option String) (uid now : Nat) (s : AppSettings)
    (huid : uid ≠ 0)
    (hfind : db.settings.find? (fun x => x.key == key) = some s) :
    set_setting db key value desc (some uid) now =
      { db with
        settings := db.settings.map (fun x => if x.key == key then
          { s with
            value := value
            description := desc
            updated_at := now
            updated_by := some uid }
          else x)
        audit_logs := db.audit_logs ++
          [{ user_id := some uid
             username := ((db.admin_users.find? (fun u => some u.id == some uid)).map
               (fun u => u.username)).getD "unknown"
             action := "setting_update"
             resource_type := "setting"
             resource_id := some key
             old_value := some s.value
             new_value := some value
             ip_address := none
             user_agent := none
             details := none }] } := by
  simp only [set_setting, hfind]
  rw [if_pos (by simp [pyTruthyNat, huid])]
  simp only [log_audit_event]
  rw [if_pos (by simp [pyTruthyNat, huid])]
  rfl

/-- set_setting on a fresh key with a nonzero actor: the row is appended and
one setting_create audit row (old value None) is appended. -/
theorem set_setting_new (db : DB) (key value : String)
    (desc : Option String) (uid now : Nat)
    (huid : uid ≠ 0)
    (hfind : db.settings.find? (fun x => x.key == key) = none) :
    set_setting db key value desc (some uid) now =
      { db with
        settings := db.settings ++
          [{ key := key
             value := value
             description := desc
             updated_at := now
             updated_by := some uid }]
        audit_logs := db.audit_logs ++
          [{ user_id := some uid
             username := ((db.admin_users.find? (fun u => some u.id == some uid)).map
               (fun u => u.username)).getD "unknown"
             action := "setting_create"
             resource_type := "setting"
             resource_id := some key
             old_value := none
             new_value := some value
             ip_address := none
             user_agent := none
             details := none }] } := by
  simp only [set_setting, hfind]
  rw [if_pos (by simp [pyTruthyNat, huid])]
  simp only [log_audit_event]
  rw [if_pos (by simp [pyTruthyNat, huid])]
  rfl

/-- set_setting with no actor never writes an audit row. -/
theorem set_setting_no_actor_no_audit (db : DB) (key value : String)
    (desc : Option String) (now : Nat) :
    (set_setting db key value desc none now).audit_logs = db.audit_logs := by
  simp only [set_setting]
  cases db.settings.find? (fun x => x.key == key) <;> rfl

/-! ### Claim C7 -/

/-- Claim C7 is false as stated: a set_setting call without an actor updates
the row but writes no audit row at all. -/
theorem C7_counterexample :
    (set_setting dbSettingK "K" "new" none none 7).settings.map (fun s => s.value)
      = ["new"] ∧
    (set_setting dbSettingK "K" "new" none none 7).audit_logs = [] ∧
    dbSettingK.audit_logs = [] := by
  decide

/-- Claim C7 (amended): set_setting upserts the row, and audits the change
only when a nonzero actor user id is supplied: then a pre-existing key yields
an in-place update plus one setting_update row carrying old and new value,
and a fresh key yields a new row plus one setting_create row; with no actor
the upsert still happens but no audit row is written. -/
theorem C7_set_setting_upsert_audit (db : DB) (key value : String)
    (desc : Option String) (uid now : Nat) (huid : uid ≠ 0) :
    (∀ s, db.settings.find? (fun x => x.key == key) = some s →
      (set_setting db key value desc (some uid) now).settings =
        db.settings.map (fun x => if x.key == key then
          { s with
            value := value
            description := desc
            updated_at := now
            updated_by := some uid }
          else x) ∧
      ∃ e, (set_setting db key value desc (some uid) now).audit_logs =
          db.audit_logs ++ [e] ∧
        e.action = "setting_update" ∧ e.old_value = some s.value ∧
        e.new_value = some value) ∧
    (db.settings.find? (fun x => x.key == key) = none →
      (set_setting db key value desc (some uid) now).settings =
        db.settings ++
          [{ key := key
             value := value
             description := desc
             updated_at := now
             updated_by := some uid }] ∧
      ∃ e, (set_setting db key value desc (some uid) now).audit_logs =
          db.audit_logs ++ [e] ∧
        e.action = "setting_create" ∧ e.old_value = none ∧
        e.new_value = some value) ∧
    (set_setting db key value desc none now).audit_logs = db.audit_logs := by
  refine ⟨?_, ?_, set_setting_no_actor_no_audit db key value desc now⟩
  · intro s hfind
    rw [set_setting_existing db key value desc uid now s huid hfind]
    exact ⟨rfl, _, rfl, rfl, rfl, rfl⟩
  · intro hfind
    rw [set_setting_new db key value desc uid now huid hfind]
    exact ⟨rfl, _, rfl, rfl, rfl, rfl⟩

/-- Witness for C7 at a concrete store. -/
theorem C7_witness :
    (1 : Nat) ≠ 0 ∧
    ((∀ s, dbSettingK.settings.find? (fun x => x.key == "K") = some s →
      (set_setting dbSettingK "K" "new" none (some 1) 7).settings =
        dbSettingK.settings.map (fun x => if x.key == "K" then
          { s with
            value := "new"
            description := none
            updated_at := 7
            updated_by := some 1 }
          else x) ∧
      ∃ e, (set_setting dbSettingK "K" "new" none (some 1) 7).audit_logs =
          dbSettingK.audit_logs ++ [e] ∧
        e.action = "setting_update" ∧ e.old_value = some s.value ∧
        e.new_value = some "new") ∧
    (dbSettingK.settings.find? (fun x => x.key == "K") = none →
      (set_setting dbSettingK "K" "new" none (some 1) 7).settings =
        dbSettingK.settings ++
          [{ key := "K"
             value := "new"
             description := none
             updated_at := 7
             updated_by := some 1 }] ∧
      ∃ e, (set_setting dbSettingK "K" "new" none (some 1) 7).audit_logs =
          dbSettingK.audit_logs ++ [e] ∧
        e.action = "setting_create" ∧ e.old_value = none ∧
        e.new_value = some "new") ∧
    (set_setting dbSettingK "K" "new" none none 7).audit_logs =
      dbSettingK.audit_logs) :=
  ⟨by decide, C7_set_setting_upsert_audit dbSettingK "K" "new" none 1 7 (by decide)⟩

/-! ### Claim C10 -/

/-- Claim C10: a successful PUT /admin/settings/key (request object injected,
authenticated actor) writes the set_setting audit row plus a second
setting_update row lacking the old value: updating an existing key yields two
setting_update rows, creating a fresh key yields one setting_create row then
one setting_update row. -/
theorem C10_update_setting_double_audit (db : DB) (key value : String)
    (desc : Option String) (u : AdminUser) (ip ua : Option String) (now : Nat)
    (hid : u.id ≠ 0) :
    (∀ s, db.settings.find? (fun x => x.key == key) = some s →
      ∃ e1 e2, (update_setting db key value desc u true ip ua now).audit_logs =
          db.audit_logs ++ [e1, e2] ∧
        e1.action = "setting_update" ∧ e1.old_value = some s.value ∧
        e2.action = "setting_update" ∧ e2.old_value = none ∧
        e2.new_value = some value) ∧
    (db.settings.find? (fun x => x.key == key) = none →
      ∃ e1 e2, (update_setting db key value desc u true ip ua now).audit_logs =
          db.audit_logs ++ [e1, e2] ∧
        e1.action = "setting_create" ∧ e1.old_value = none ∧
        e2.action = "setting_update" ∧ e2.old_value = none ∧
        e2.new_value = some value) := by
  constructor
  · intro s hfind
    simp only [update_setting, set_setting_existing db key value desc u.id now s hid hfind]
    rw [if_pos trivial]
    exact ⟨_, _, List.append_assoc _ _ _, rfl, rfl, rfl, rfl, rfl⟩
  · intro hfind
    simp only [update_setting, set_setting_new db key value desc u.id now hid hfind]
    rw [if_pos trivial]
    exact ⟨_, _, List.append_assoc _ _ _, rfl, rfl, rfl, rfl, rfl⟩

/-- Witness for C10 at a concrete store and actor. -/
theorem C10_witness :
    adminUser1.id ≠ 0 ∧
    ((∀ s, dbSettingK.settings.find? (fun x => x.key == "K") = some s →
      ∃ e1 e2, (update_setting dbSettingK "K" "new" none adminUser1 true none none 7).audit_logs =
          dbSettingK.audit_logs ++ [e1, e2] ∧
        e1.action = "setting_update" ∧ e1.old_value = some s.value ∧
        e2.action = "setting_update" ∧ e2.old_value = none ∧
        e2.new_value = some "new") ∧
    (dbSettingK.settings.find? (fun x => x.key == "K") = none →
      ∃ e1 e2, (update_setting dbSettingK "K" "new" none adminUser1 true none none 7).audit_logs =
          dbSettingK.audit_logs ++ [e1, e2] ∧
        e1.action = "setting_create" ∧ e1.old_value = none ∧
        e2.action = "setting_update" ∧ e2.old_value = none ∧
        e2.new_value = some "new")) :=
  ⟨by decide,
   C10_update_setting_double_audit dbSettingK "K" "new" none adminUser1 none none 7
     (by decide)⟩

/-! ### Claim C8 -/

/-- Claim C8: bearer-token verification only needs the token to decode with a
subject naming an existing adminuser row; the is_active flag is never
consulted, so a token for a deactivated account is accepted by
get_current_user (on which every authenticated admin endpoint depends), even
though login rejects that same deactivated account. -/
theorem C8_inactive_account_token_accepted (db : DB) (u : AdminUser)
    (uname pw : String) (vp : String → String → Bool) (ip ua : Option String)
    (hfind : db.admin_users.find? (fun x => x.username == uname) = some u)
    (hactive : u.is_active = false)
    (hvp : vp pw u.password_hash = true) :
    get_current_user db (some { sub := some uname }) = .ok u ∧
    (login db vp uname pw ip ua).2 = .error "User account is disabled" := by
  constructor
  · simp only [get_current_user, verify_token, hfind]
  · simp only [login, hfind, hvp, hactive]
    rfl

/-- Witness for C8 at a concrete store with a deactivated admin. -/
theorem C8_witness :
    (dbInactiveAdmin.admin_users.find? (fun x => x.username == "admin") =
        some adminInactive ∧
      adminInactive.is_active = false ∧
      (fun (_ : String) (_ : String) => true) "pw" adminInactive.password_hash = true) ∧
    (get_current_user dbInactiveAdmin (some { sub := some "admin" }) =
        .ok adminInactive ∧
      (login dbInactiveAdmin (fun _ _ => true) "admin" "pw" none none).2 =
        .error "User account is disabled") :=
  ⟨⟨rfl, rfl, rfl⟩,
   C8_inactive_account_token_accepted dbInactiveAdmin adminInactive "admin" "pw"
     (fun _ _ => true) none none rfl rfl rfl⟩

/-! ### Claim C9 -/

/-- Claim C9: the order-listing route always returns at most 50 rows, in
descending primary-key order (newest id first), whatever the store holds;
list_orders takes no offset or limit parameter. -/
theorem C9_list_orders_bounded_sorted (db : DB) :
    (list_orders db).length ≤ 50 ∧ (list_orders db).Pairwise byIdDesc := by
  constructor
  · exact List.length_take_le 50 _
  · exact List.Pairwise.sublist (List.take_sublist 50 _)
      (List.sorted_insertionSort byIdDesc db.orders)

end PaymentStripe
